import Mathlib

set_option maxRecDepth 8000

namespace MockDashboard

/-!  Shallow embedding of the mockdashboard content-query layer.

The embedded code is `lib/database.js` (functions `getAllContent`,
`searchContent`, `getContentStats`, `getCategories`, `getSources`) and the
two Next.js route handlers `app/api/data/route.ts` and
`app/api/stats/route.ts`.  The backing SQLite table `content` is modelled as
a `List ContentRecord`; SQL fragments (WHERE, ORDER BY, LIMIT/OFFSET, LIKE,
COUNT/AVG/SUM, DISTINCT ... ORDER BY) are modelled by their standard
denotations on lists; JavaScript numeric quirks (parseInt, NaN, truthiness,
null arithmetic) are modelled explicitly. -/

/-- One row of the `content` table (schema from `scripts/setup-database.js`
and the SELECT column lists in `lib/database.js`).  Decimal columns are
modelled as rationals. -/
structure ContentRecord where
  id : Nat
  category : String
  url : String
  source : String
  time_spent_minutes : ℚ
  upvotes : Nat
  views : Nat
  engagement_score : ℚ
  content_type : String
  difficulty_level : String
  trending_score : ℚ
  created_at : String := ""
  updated_at : String := ""
deriving DecidableEq, Repr

/-- A JavaScript numeric query-parameter value as it reaches the filter
object: `undefined`, `NaN` (from a failed `parseInt`), or an integer. -/
inductive JSNum where
  | undefined : JSNum
  | nan : JSNum
  | int : ℤ → JSNum
deriving DecidableEq, Repr

/-- JavaScript truthiness of a `JSNum`: `undefined` and `NaN` are falsy,
an integer is truthy iff it is nonzero. -/
def JSNum.truthy : JSNum → Bool
  | JSNum.undefined => false
  | JSNum.nan => false
  | JSNum.int n => n ≠ 0

/-- The `filters` object taken by `getAllContent` / `searchContent`.
String fields model JS strings (absent modelled as `""`-or-`none` exactly
as the route builds them). -/
structure Filters where
  category : String
  source : String
  contentType : Option String
  difficultyLevel : Option String
  limit : JSNum
  offset : JSNum
deriving DecidableEq, Repr

/-- Decimal digit value of a character, `none` if not a digit. -/
def decDigit (c : Char) : Option Nat :=
  if '0' ≤ c ∧ c ≤ '9' then some (c.toNat - 48) else none

/-- Hexadecimal digit value of a character, `none` if not a hex digit. -/
def hexDigit (c : Char) : Option Nat :=
  if '0' ≤ c ∧ c ≤ '9' then some (c.toNat - 48)
  else if 'a' ≤ c ∧ c ≤ 'f' then some (c.toNat - 87)
  else if 'A' ≤ c ∧ c ≤ 'F' then some (c.toNat - 55)
  else none

/-- Evaluate a digit string in the given base. -/
def evalDigits (base : Nat) (dv : Char → Option Nat) (l : List Char) : Nat :=
  l.foldl (fun acc c => acc * base + (dv c).getD 0) 0

/-- Model of JavaScript's global `parseInt` with no radix argument:
skip leading whitespace, optional sign, auto-detected `0x` hex prefix,
longest leading digit run; `NaN` when no digit is consumed. -/
def jsParseInt (s : String) : JSNum :=
  let l := s.data.dropWhile Char.isWhitespace
  let sg : ℤ := match l with
    | '-' :: _ => -1
    | _ => 1
  let l₁ : List Char := match l with
    | '-' :: r => r
    | '+' :: r => r
    | _ => l
  match l₁ with
  | '0' :: c :: r =>
    if c = 'x' ∨ c = 'X' then
      let ds := r.takeWhile (fun d => (hexDigit d).isSome)
      if ds.isEmpty then JSNum.nan else JSNum.int (sg * evalDigits 16 hexDigit ds)
    else
      let ds := ('0' :: c :: r).takeWhile (fun d => (decDigit d).isSome)
      JSNum.int (sg * evalDigits 10 decDigit ds)
  | _ =>
    let ds := l₁.takeWhile (fun d => (decDigit d).isSome)
    if ds.isEmpty then JSNum.nan else JSNum.int (sg * evalDigits 10 decDigit ds)

/-- Model of `String.prototype.trim`: strip whitespace from both ends. -/
def jsTrim (s : String) : String :=
  ⟨((s.data.dropWhile Char.isWhitespace).reverse.dropWhile Char.isWhitespace).reverse⟩

/-- Model of `a || b` for a possibly-absent JS string: `null`/`undefined`
and `""` are falsy and give the default. -/
def jsOrDefault (o : Option String) (d : String) : String :=
  match o with
  | none => d
  | some s => if s = "" then d else s

/-- ASCII lower-casing of one character (SQLite's `LIKE` folds case for
ASCII only). -/
def asciiLower (c : Char) : Char :=
  if 'A' ≤ c ∧ c ≤ 'Z' then Char.ofNat (c.toNat + 32) else c

/-- One literal `LIKE`-pattern character matched against one text
character: `_` matches anything, otherwise ASCII-case-insensitive
equality. -/
def charMatch (p c : Char) : Bool :=
  p = '_' || asciiLower p = asciiLower c

/-- Denotation of SQLite `text LIKE pattern` (no ESCAPE clause):
`%` matches any sequence, `_` any single character, literal characters
match ASCII-case-insensitively. -/
def likeMatch : List Char → List Char → Bool
  | [], t => t.isEmpty
  | p :: ps, t =>
    if p = '%' then t.tails.any (fun s => likeMatch ps s)
    else
      match t with
      | [] => false
      | c :: ts => charMatch p c && likeMatch ps ts

/-- The pattern `searchContent` binds for each LIKE clause:
the template literal `%${query}%`. -/
def likeParam (q : String) : List Char :=
  '%' :: (q.data ++ ['%'])

/-- The WHERE clause of `searchContent`'s query:
`category LIKE ? OR source LIKE ? OR content_type LIKE ? OR
difficulty_level LIKE ?`, all four bound to `%${query}%`. -/
def searchPred (q : String) (r : ContentRecord) : Bool :=
  likeMatch (likeParam q) r.category.data ||
  likeMatch (likeParam q) r.source.data ||
  likeMatch (likeParam q) r.content_type.data ||
  likeMatch (likeParam q) r.difficulty_level.data

/-- The filter conditions `getAllContent` pushes into its WHERE clause:
category and source only when truthy and not the literal `"All"`,
content_type and difficulty_level whenever truthy (no `"All"` guard). -/
def matchesGetAllFilters (f : Filters) (r : ContentRecord) : Bool :=
  (if f.category ≠ "" ∧ f.category ≠ "All" then decide (r.category = f.category) else true) &&
  (if f.source ≠ "" ∧ f.source ≠ "All" then decide (r.source = f.source) else true) &&
  (match f.contentType with
   | some s => if s ≠ "" then decide (r.content_type = s) else true
   | none => true) &&
  (match f.difficultyLevel with
   | some s => if s ≠ "" then decide (r.difficulty_level = s) else true
   | none => true)

/-- The additional filter conditions `searchContent` appends: only
category and source (content_type and difficulty_level are never
consulted there). -/
def matchesSearchFilters (f : Filters) (r : ContentRecord) : Bool :=
  (if f.category ≠ "" ∧ f.category ≠ "All" then decide (r.category = f.category) else true) &&
  (if f.source ≠ "" ∧ f.source ≠ "All" then decide (r.source = f.source) else true)

/-- The comparator of `ORDER BY engagement_score DESC, trending_score DESC`:
`a` may come before `b` iff `a` has strictly larger engagement score, or
equal engagement and at-least-as-large trending score. -/
def rowOrder (a b : ContentRecord) : Prop :=
  b.engagement_score < a.engagement_score ∨
    (b.engagement_score = a.engagement_score ∧ b.trending_score ≤ a.trending_score)

instance rowOrderDec : DecidableRel rowOrder := fun a b =>
  inferInstanceAs (Decidable (_ ∨ _ ∧ _))

instance rowOrderTotal : IsTotal ContentRecord rowOrder where
  total a b := by
    rcases lt_trichotomy a.engagement_score b.engagement_score with h | h | h
    · exact Or.inr (Or.inl h)
    · rcases le_total b.trending_score a.trending_score with ht | ht
      · exact Or.inl (Or.inr ⟨h.symm, ht⟩)
      · exact Or.inr (Or.inr ⟨h, ht⟩)
    · exact Or.inl (Or.inl h)

instance rowOrderTrans : IsTrans ContentRecord rowOrder where
  trans a b c hab hbc := by
    rcases hab with h₁ | ⟨e₁, l₁⟩
    · rcases hbc with h₂ | ⟨e₂, _⟩
      · exact Or.inl (h₂.trans h₁)
      · exact Or.inl (e₂ ▸ h₁)
    · rcases hbc with h₂ | ⟨e₂, l₂⟩
      · exact Or.inl (lt_of_lt_of_eq h₂ e₁)
      · exact Or.inr ⟨e₂.trans e₁, l₂.trans l₁⟩

/-- SQLite `LIMIT n`: a negative bound means "no limit". -/
def sqliteTake (n : ℤ) (l : List ContentRecord) : List ContentRecord :=
  if n < 0 then l else l.take n.toNat

/-- SQLite `OFFSET n`: a negative offset behaves like 0. -/
def sqliteDrop (n : ℤ) (l : List ContentRecord) : List ContentRecord :=
  l.drop n.toNat

/-- The pagination tail of `getAllContent`: a LIMIT clause is added only
when `filters.limit` is truthy, and an OFFSET clause only when, in
addition, `filters.offset` is truthy. -/
def applyPagination (lim off : JSNum) (rows : List ContentRecord) : List ContentRecord :=
  match lim with
  | JSNum.int l =>
    if l ≠ 0 then
      sqliteTake l
        (match off with
         | JSNum.int o => if o ≠ 0 then sqliteDrop o rows else rows
         | _ => rows)
    else rows
  | _ => rows

/-- `getAllContent(filters)`: filtered, sorted, then paginated. -/
def getAllContent (f : Filters) (db : List ContentRecord) : List ContentRecord :=
  applyPagination f.limit f.offset
    (List.insertionSort rowOrder (db.filter (matchesGetAllFilters f)))

/-- `searchContent(query, filters)`: the four-way LIKE clause ANDed with
the category/source filters, then sorted; no pagination. -/
def searchContent (q : String) (f : Filters) (db : List ContentRecord) : List ContentRecord :=
  List.insertionSort rowOrder
    (db.filter (fun r => searchPred q r && matchesSearchFilters f r))

/-- The raw query string parameters of `GET /api/data`
(`none` = parameter absent). -/
structure RawQuery where
  search : Option String
  category : Option String
  source : Option String
  contentType : Option String
  difficultyLevel : Option String
  limit : Option String
  offset : Option String
deriving DecidableEq, Repr

/-- `searchParams.get('limit') ? parseInt(searchParams.get('limit')!) :
undefined` (and likewise for offset): absent or empty is `undefined`,
otherwise `parseInt`. -/
def parseNumParam (o : Option String) : JSNum :=
  match o with
  | none => JSNum.undefined
  | some s => if s = "" then JSNum.undefined else jsParseInt s

/-- The `filters` object the data route builds from the query string. -/
def routeFilters (q : RawQuery) : Filters where
  category := jsOrDefault q.category "All"
  source := jsOrDefault q.source "All"
  contentType :=
    if jsOrDefault q.contentType "" ≠ "" then some (jsOrDefault q.contentType "") else none
  difficultyLevel :=
    if jsOrDefault q.difficultyLevel "" ≠ "" then some (jsOrDefault q.difficultyLevel "") else none
  limit := parseNumParam q.limit
  offset := parseNumParam q.offset

/-- The fetch-records operation `GET /api/data`: dispatches to
`searchContent` when the trimmed search string is nonempty, otherwise to
`getAllContent`.  (The route's final field-renaming map is a bijection on
field names and is omitted.) -/
def routeFetch (q : RawQuery) (db : List ContentRecord) : List ContentRecord :=
  let search := jsOrDefault q.search ""
  if jsTrim search ≠ "" then searchContent search (routeFilters q) db
  else getAllContent (routeFilters q) db

/-- The record predicate the data route effectively applies, in either
mode (used to state which records are "matching"). -/
def routePred (q : RawQuery) (r : ContentRecord) : Bool :=
  if jsTrim (jsOrDefault q.search "") ≠ "" then
    searchPred (jsOrDefault q.search "") r && matchesSearchFilters (routeFilters q) r
  else matchesGetAllFilters (routeFilters q) r

/-- Result object of `getContentStats`.  `totalUpvotes`/`totalViews` are
`Option` because SQL `SUM` over an empty table is NULL, which the code
passes through unchanged. -/
structure ContentStats where
  totalContent : Nat
  avgTimeSpent : ℚ
  totalUpvotes : Option Nat
  totalViews : Option Nat
deriving DecidableEq, Repr

/-- SQL `SUM` over a column: NULL on the empty table. -/
def sqlSum (l : List Nat) : Option Nat :=
  if l.isEmpty then none else some l.sum

/-- SQL `AVG` over a column: NULL on the empty table. -/
def sqlAvg (l : List ℚ) : Option ℚ :=
  if l.isEmpty then none else some (l.sum / l.length)

/-- JavaScript arithmetic coercion of a possibly-NULL value:
`null * 100` evaluates to `0`. -/
def jsNumOf (o : Option ℚ) : ℚ :=
  match o with
  | none => 0
  | some x => x

/-- `Math.round(x * 100) / 100` (`Math.round y` is the floor of `y + 1/2`,
which is Mathlib's `round` on ℚ). -/
def jsRound2 (x : ℚ) : ℚ :=
  (round (x * 100) : ℤ) / 100
/-- `getContentStats()`: COUNT, the rounded AVG of time_spent_minutes,
and the SUMs of upvotes and views over the whole table. -/
def getContentStats (db : List ContentRecord) : ContentStats where
  totalContent := db.length
  avgTimeSpent := jsRound2 (jsNumOf (sqlAvg (db.map (·.time_spent_minutes))))
  totalUpvotes := sqlSum (db.map (·.upvotes))
  totalViews := sqlSum (db.map (·.views))

/-- `SELECT DISTINCT category FROM content ORDER BY category`. -/
def getCategories (db : List ContentRecord) : List String :=
  List.insertionSort (· ≤ ·) (db.map (·.category)).dedup

/-- `SELECT DISTINCT source FROM content ORDER BY source`. -/
def getSources (db : List ContentRecord) : List String :=
  List.insertionSort (· ≤ ·) (db.map (·.source)).dedup

/-!  Helper lemmas about the embedded operations. -/

theorem mem_of_sqliteTake {n : ℤ} {l : List ContentRecord} {r : ContentRecord}
    (h : r ∈ sqliteTake n l) : r ∈ l := by
  unfold sqliteTake at h
  split at h
  · exact h
  · exact (List.take_sublist _ _).subset h

theorem mem_of_applyPagination {lim off : JSNum} {l : List ContentRecord}
    {r : ContentRecord} (h : r ∈ applyPagination lim off l) : r ∈ l := by
  unfold applyPagination at h
  cases lim with
  | undefined => exact h
  | nan => exact h
  | int n =>
    dsimp only at h
    split at h
    · have h₁ := mem_of_sqliteTake h
      cases off with
      | undefined => exact h₁
      | nan => exact h₁
      | int o =>
        dsimp only at h₁
        split at h₁
        · exact (List.drop_sublist _ _).subset h₁
        · exact h₁
    · exact h

theorem sorted_sqliteTake {n : ℤ} {l : List ContentRecord}
    (h : List.Sorted rowOrder l) : List.Sorted rowOrder (sqliteTake n l) := by
  unfold sqliteTake
  split
  · exact h
  · exact List.Pairwise.sublist (List.take_sublist _ _) h

theorem sorted_applyPagination (lim off : JSNum) {l : List ContentRecord}
    (h : List.Sorted rowOrder l) : List.Sorted rowOrder (applyPagination lim off l) := by
  unfold applyPagination
  cases lim with
  | undefined => exact h
  | nan => exact h
  | int n =>
    dsimp only
    split
    · apply sorted_sqliteTake
      cases off with
      | undefined => exact h
      | nan => exact h
      | int o =>
        dsimp only
        split
        · exact List.Pairwise.sublist (List.drop_sublist _ _) h
        · exact h
    · exact h

theorem mem_getAllContent {f : Filters} {db : List ContentRecord} {r : ContentRecord}
    (h : r ∈ getAllContent f db) : matchesGetAllFilters f r = true ∧ r ∈ db := by
  unfold getAllContent at h
  have h₁ := mem_of_applyPagination h
  have h₂ := (List.perm_insertionSort rowOrder _).mem_iff.mp h₁
  rw [List.mem_filter] at h₂
  exact ⟨h₂.2, h₂.1⟩

theorem mem_searchContent {s : String} {f : Filters} {db : List ContentRecord}
    {r : ContentRecord} (h : r ∈ searchContent s f db) :
    searchPred s r = true ∧ matchesSearchFilters f r = true ∧ r ∈ db := by
  unfold searchContent at h
  have h₁ := (List.perm_insertionSort rowOrder _).mem_iff.mp h
  rw [List.mem_filter, Bool.and_eq_true] at h₁
  exact ⟨h₁.2.1, h₁.2.2, h₁.1⟩

theorem getAllContent_limit_not_truthy (f : Filters) (h : f.limit.truthy = false)
    (db : List ContentRecord) :
    getAllContent f db = List.insertionSort rowOrder (db.filter (matchesGetAllFilters f)) := by
  unfold getAllContent applyPagination
  cases hf : f.limit with
  | undefined => rfl
  | nan => rfl
  | int n =>
    have hn : n = 0 := by
      rw [hf] at h
      simpa [JSNum.truthy] using h
    subst hn
    simp

/-- C6.  Every sequence returned by the fetch-records operation is sorted
by engagement_score descending with ties broken by trending_score
descending (the `rowOrder` comparator), for every dataset, search string
and filter combination. -/
theorem c6_fetch_sorted (q : RawQuery) (db : List ContentRecord) :
    List.Sorted rowOrder (routeFetch q db) := by
  unfold routeFetch searchContent getAllContent
  dsimp only
  split
  · exact List.sorted_insertionSort rowOrder _
  · exact sorted_applyPagination _ _ (List.sorted_insertionSort rowOrder _)

/-- C9.  Supplying an offset without a limit is a no-op: the offset
parameter is consulted only inside the truthy-limit branch, so with no
limit the result equals that of the same query with no offset. -/
theorem c9_offset_without_limit_noop (q : RawQuery) (db : List ContentRecord) (s : String) :
    routeFetch {q with offset := some s, limit := none} db =
      routeFetch {q with offset := none, limit := none} db := rfl

/-- C10.  limit=0 is falsy in JavaScript, so it is treated as "no limit":
the query behaves exactly like the same query without a limit parameter,
and (in either mode) returns all matching records. -/
theorem c10_limit_zero_is_no_limit (q : RawQuery) (db : List ContentRecord) :
    routeFetch {q with limit := some "0"} db = routeFetch {q with limit := none} db ∧
    (routeFetch {q with limit := some "0"} db).Perm
      (db.filter (routePred {q with limit := some "0"})) := by
  refine ⟨rfl, ?_⟩
  unfold routeFetch routePred
  dsimp only
  split
  · unfold searchContent
    exact List.perm_insertionSort rowOrder _
  · rw [getAllContent_limit_not_truthy (routeFilters {q with limit := some "0"}) rfl]
    exact List.perm_insertionSort rowOrder _

/-- Fixed record used by several concrete counterexamples. -/
def rec3 : ContentRecord where
  id := 1
  category := "c"
  url := "u"
  source := "s"
  time_spent_minutes := 0
  upvotes := 0
  views := 0
  engagement_score := 0
  content_type := "video"
  difficulty_level := "d"
  trending_score := 0

/-- Query with contentType="All" and nothing else. -/
def q3All : RawQuery where
  search := none
  category := none
  source := none
  contentType := some "All"
  difficultyLevel := none
  limit := none
  offset := none

/-- Query with no parameters at all. -/
def qBlank : RawQuery where
  search := none
  category := none
  source := none
  contentType := none
  difficultyLevel := none
  limit := none
  offset := none

/-- C3 counterexample.  For content_type the literal "All" is NOT treated
as "no filter": with one record whose content_type is "video", supplying
contentType="All" returns the empty list while supplying no contentType
filter returns the record. -/
theorem c3_counterexample :
    routeFetch q3All [rec3] = [] ∧ routeFetch qBlank [rec3] = [rec3] ∧
      routeFetch q3All [rec3] ≠ routeFetch qBlank [rec3] := by
  refine ⟨by decide, by decide, by decide⟩

/-- C3 amended.  The "All"-means-no-filter rule does hold for the
category and source fields (the route defaults both to "All" when absent,
and both query builders skip the condition for "All"). -/
theorem c3_amended (q : RawQuery) (db : List ContentRecord) :
    routeFetch {q with category := some "All"} db = routeFetch {q with category := none} db ∧
      routeFetch {q with source := some "All"} db = routeFetch {q with source := none} db :=
  ⟨rfl, rfl⟩

/-- C5.  A malformed limit string (parseInt gives NaN) does not produce a
validation error: NaN is falsy, so the LIMIT clause is silently dropped
and the request behaves exactly as if no limit had been supplied. -/
theorem c5_malformed_limit_ignored (db : List ContentRecord) (q : RawQuery)
    (h : parseNumParam q.limit = JSNum.nan) :
    routeFetch q db = routeFetch {q with limit := none} db := by
  have hf : routeFilters q = {routeFilters {q with limit := none} with limit := JSNum.nan} := by
    simp [routeFilters, h]
  unfold routeFetch
  dsimp only
  rw [hf]
  rfl

/-- The category filter, as supplied in the raw query, is satisfied by a
record (empty and "All" mean no constraint). -/
def catOK (q : RawQuery) (r : ContentRecord) : Prop :=
  match q.category with
  | some s => s = "" ∨ s = "All" ∨ r.category = s
  | none => True

/-- The source filter, as supplied in the raw query, is satisfied by a
record (empty and "All" mean no constraint). -/
def srcOK (q : RawQuery) (r : ContentRecord) : Prop :=
  match q.source with
  | some s => s = "" ∨ s = "All" ∨ r.source = s
  | none => True

/-- The content_type filter, as supplied in the raw query, is satisfied
by a record (only empty means no constraint — there is no "All" guard for
this field in the code). -/
def ctOK (q : RawQuery) (r : ContentRecord) : Prop :=
  match q.contentType with
  | some s => s = "" ∨ r.content_type = s
  | none => True

/-- The difficulty_level filter, as supplied in the raw query, is
satisfied by a record (only empty means no constraint). -/
def dlOK (q : RawQuery) (r : ContentRecord) : Prop :=
  match q.difficultyLevel with
  | some s => s = "" ∨ r.difficulty_level = s
  | none => True

/-- What the code actually guarantees about a returned record: the
category and source filters always hold; in search mode the LIKE-based
search predicate holds (but the content_type / difficulty_level filters
are ignored); in non-search mode the content_type and difficulty_level
filters hold as well. -/
def returnedOK (q : RawQuery) (r : ContentRecord) : Prop :=
  catOK q r ∧ srcOK q r ∧
    (if jsTrim (jsOrDefault q.search "") ≠ "" then
      searchPred (jsOrDefault q.search "") r = true
    else ctOK q r ∧ dlOK q r)

theorem catOK_of_matches {q : RawQuery} {r : ContentRecord}
    (hc : (if (routeFilters q).category ≠ "" ∧ (routeFilters q).category ≠ "All" then
        decide (r.category = (routeFilters q).category) else true) = true) :
    catOK q r := by
  unfold catOK
  cases hq : q.category with
  | none => trivial
  | some s =>
    by_cases h1 : s = ""
    · exact Or.inl h1
    by_cases h2 : s = "All"
    · exact Or.inr (Or.inl h2)
    have hf : (routeFilters q).category = s := by
      simp [routeFilters, hq, jsOrDefault, h1]
    rw [hf] at hc
    rw [if_pos ⟨h1, h2⟩] at hc
    exact Or.inr (Or.inr (of_decide_eq_true hc))

theorem srcOK_of_matches {q : RawQuery} {r : ContentRecord}
    (hc : (if (routeFilters q).source ≠ "" ∧ (routeFilters q).source ≠ "All" then
        decide (r.source = (routeFilters q).source) else true) = true) :
    srcOK q r := by
  unfold srcOK
  cases hq : q.source with
  | none => trivial
  | some s =>
    by_cases h1 : s = ""
    · exact Or.inl h1
    by_cases h2 : s = "All"
    · exact Or.inr (Or.inl h2)
    have hf : (routeFilters q).source = s := by
      simp [routeFilters, hq, jsOrDefault, h1]
    rw [hf] at hc
    rw [if_pos ⟨h1, h2⟩] at hc
    exact Or.inr (Or.inr (of_decide_eq_true hc))

theorem ctOK_of_matches {q : RawQuery} {r : ContentRecord}
    (hc : (match (routeFilters q).contentType with
      | some s => if s ≠ "" then decide (r.content_type = s) else true
      | none => true) = true) :
    ctOK q r := by
  unfold ctOK
  cases hq : q.contentType with
  | none => trivial
  | some s =>
    by_cases h1 : s = ""
    · exact Or.inl h1
    have hf : (routeFilters q).contentType = some s := by
      simp [routeFilters, hq, jsOrDefault, h1]
    rw [hf] at hc
    dsimp only at hc
    rw [if_pos h1] at hc
    exact Or.inr (of_decide_eq_true hc)

theorem dlOK_of_matches {q : RawQuery} {r : ContentRecord}
    (hc : (match (routeFilters q).difficultyLevel with
      | some s => if s ≠ "" then decide (r.difficulty_level = s) else true
      | none => true) = true) :
    dlOK q r := by
  unfold dlOK
  cases hq : q.difficultyLevel with
  | none => trivial
  | some s =>
    by_cases h1 : s = ""
    · exact Or.inl h1
    have hf : (routeFilters q).difficultyLevel = some s := by
      simp [routeFilters, hq, jsOrDefault, h1]
    rw [hf] at hc
    dsimp only at hc
    rw [if_pos h1] at hc
    exact Or.inr (of_decide_eq_true hc)

/-- C1 amended.  Every record returned by the fetch-records operation
satisfies the supplied category and source filters; when no search string
is supplied it also satisfies the supplied content_type and
difficulty_level filters; when a search string is supplied it satisfies
the search predicate instead (content_type and difficulty_level filters
are ignored in search mode). -/
theorem c1_amended (q : RawQuery) (db : List ContentRecord) (r : ContentRecord)
    (h : r ∈ routeFetch q db) : returnedOK q r := by
  unfold routeFetch at h
  dsimp only at h
  unfold returnedOK
  by_cases hs : jsTrim (jsOrDefault q.search "") ≠ ""
  · rw [if_pos hs] at h ⊢
    obtain ⟨h₁, h₂, _⟩ := mem_searchContent h
    unfold matchesSearchFilters at h₂
    rw [Bool.and_eq_true] at h₂
    exact ⟨catOK_of_matches h₂.1, srcOK_of_matches h₂.2, h₁⟩
  · rw [if_neg hs] at h ⊢
    obtain ⟨h₁, _⟩ := mem_getAllContent h
    unfold matchesGetAllFilters at h₁
    rw [Bool.and_eq_true, Bool.and_eq_true, Bool.and_eq_true] at h₁
    exact ⟨catOK_of_matches h₁.1.1.1, srcOK_of_matches h₁.1.1.2,
      ctOK_of_matches h₁.1.2, dlOK_of_matches h₁.2⟩

/-- Record whose category contains "x" but whose content_type is "video". -/
def rC1 : ContentRecord :=
  {rec3 with category := "xa"}

/-- Query with a search string and a content_type filter. -/
def q1 : RawQuery :=
  {qBlank with search := some "x", contentType := some "blog"}

/-- C1 counterexample.  In search mode the content_type filter is ignored:
the query supplies contentType="blog" yet the returned record has
content_type "video". -/
theorem c1_counterexample :
    routeFetch q1 [rC1] = [rC1] ∧ q1.contentType = some "blog" ∧
      rC1.content_type ≠ "blog" :=
  ⟨by decide, by decide, by decide⟩

/-- C1 witness: a concrete record returned by a concrete query satisfies
the amended guarantee. -/
theorem c1_witness : rC1 ∈ routeFetch q1 [rC1] ∧ returnedOK q1 rC1 :=
  ⟨by decide, c1_amended q1 [rC1] rC1 (by decide)⟩

/-- C4 amended.  With no search string, a limit parsing to n > 0 and an
offset parsing to k ≥ 0, the result is the unpaginated result with the
first k rows dropped and then at most n rows taken; in particular at most
n records are returned.  (With a search string, limit and offset are
ignored entirely: see the C4 counterexample.) -/
theorem c4_amended (db : List ContentRecord) (q : RawQuery) (n k : ℤ)
    (hs : jsTrim (jsOrDefault q.search "") = "")
    (hl : parseNumParam q.limit = JSNum.int n) (hn : 0 < n)
    (ho : parseNumParam q.offset = JSNum.int k) (hk : 0 ≤ k) :
    routeFetch q db =
      ((routeFetch {q with limit := none, offset := none} db).drop k.toNat).take n.toNat ∧
    (routeFetch q db).length ≤ n.toNat := by
  have hcond : ¬ (jsTrim (jsOrDefault q.search "") ≠ "") := by simp [hs]
  have hbase : routeFetch {q with limit := none, offset := none} db =
      List.insertionSort rowOrder (db.filter (matchesGetAllFilters (routeFilters q))) := by
    unfold routeFetch
    dsimp only
    rw [if_neg hcond]
    rw [getAllContent_limit_not_truthy (routeFilters {q with limit := none, offset := none}) rfl]
    rfl
  have hfl : (routeFilters q).limit = JSNum.int n := by rw [← hl]; rfl
  have hfo : (routeFilters q).offset = JSNum.int k := by rw [← ho]; rfl
  rw [hbase]
  unfold routeFetch
  dsimp only
  rw [if_neg hcond]
  unfold getAllContent
  rw [hfl, hfo]
  unfold applyPagination sqliteTake sqliteDrop
  dsimp only
  rw [if_pos hn.ne', if_neg (not_lt.mpr hn.le)]
  by_cases hk0 : k = 0
  · subst hk0
    simp only [ne_eq, not_true_eq_false, if_false, Int.toNat_zero, List.drop_zero]
    exact ⟨trivial, by simp [List.length_take]⟩
  · rw [if_pos hk0]
    exact ⟨rfl, by simp [List.length_take]⟩

/-- Higher-engagement record matching search "a". -/
def rec4a : ContentRecord :=
  {rec3 with id := 11, category := "aa", engagement_score := 1}

/-- Lower-engagement record matching search "a". -/
def rec4b : ContentRecord :=
  {rec3 with id := 12, category := "ab"}

/-- Query in search mode with limit=1. -/
def q4s : RawQuery :=
  {qBlank with search := some "a", limit := some "1"}

/-- Query with limit=0. -/
def q4z : RawQuery :=
  {qBlank with limit := some "0"}

/-- C4 counterexample.  limit does not always bound the result: in search
mode limit=1 still returns 2 records (searchContent has no pagination),
and limit=0 returns 1 record rather than at most 0. -/
theorem c4_counterexample :
    (routeFetch q4s [rec4a, rec4b]).length = 2 ∧
      (routeFetch q4z [rec3]).length = 1 :=
  ⟨by decide, by decide⟩

/-- Query with limit=2 and offset=1 and no search. -/
def q4w : RawQuery :=
  {qBlank with limit := some "2", offset := some "1"}

/-- Third record for the C4 witness dataset. -/
def rec4c : ContentRecord :=
  {rec3 with id := 13, trending_score := 1}

/-- C4 witness: the amended pagination law at a concrete query and
dataset. -/
theorem c4_witness :
    jsTrim (jsOrDefault q4w.search "") = "" ∧
    parseNumParam q4w.limit = JSNum.int 2 ∧ (0:ℤ) < 2 ∧
    parseNumParam q4w.offset = JSNum.int 1 ∧ (0:ℤ) ≤ 1 ∧
    (routeFetch q4w [rec4a, rec4b, rec4c] =
        ((routeFetch {q4w with limit := none, offset := none}
          [rec4a, rec4b, rec4c]).drop (1:ℤ).toNat).take (2:ℤ).toNat ∧
      (routeFetch q4w [rec4a, rec4b, rec4c]).length ≤ (2:ℤ).toNat) :=
  ⟨by decide, by decide, by decide, by decide, by decide,
    c4_amended [rec4a, rec4b, rec4c] q4w 2 1 (by decide) (by decide) (by decide)
      (by decide) (by decide)⟩

/-- C5 witness: limit="abc" parses to NaN, and the request with
limit="abc" returns exactly what the request without a limit returns. -/
theorem c5_witness :
    parseNumParam (some "abc") = JSNum.nan ∧
      routeFetch {qBlank with limit := some "abc"} [rec3] =
        routeFetch {{qBlank with limit := some "abc"} with limit := none} [rec3] :=
  ⟨by decide, c5_malformed_limit_ignored [rec3] {qBlank with limit := some "abc"} (by decide)⟩

/-!  The LIKE pattern semantics versus plain case-insensitive substring
matching (claim C7). -/

theorem likeMatch_star (ps t : List Char) :
    likeMatch ('%' :: ps) t = t.tails.any (fun s => likeMatch ps s) := rfl

theorem consPrefixCons {α : Type} {a b : α} {l₁ l₂ : List α} :
    a :: l₁ <+: b :: l₂ ↔ a = b ∧ l₁ <+: l₂ := by
  constructor
  · rintro ⟨t, ht⟩
    injection ht with h₁ h₂
    exact ⟨h₁, t, h₂⟩
  · rintro ⟨rfl, t, rfl⟩
    exact ⟨t, rfl⟩

/-- A wildcard-free pattern followed by a trailing `%` matches a text iff
the (case-folded) pattern is a prefix of the (case-folded) text. -/
theorem litStar : ∀ (q : List Char), (∀ c ∈ q, c ≠ '%' ∧ c ≠ '_') → ∀ (t : List Char),
    (likeMatch (q ++ ['%']) t = true ↔ q.map asciiLower <+: t.map asciiLower)
  | [], _, t => by
    rw [List.nil_append, likeMatch_star]
    simp only [List.any_eq_true, List.mem_tails, List.map_nil]
    constructor
    · intro _
      exact List.nil_prefix
    · intro _
      exact ⟨[], ⟨t, List.append_nil t⟩, rfl⟩
  | a :: q, hq, t => by
    have ha := hq a (List.mem_cons_self a q)
    have hq' : ∀ c ∈ q, c ≠ '%' ∧ c ≠ '_' := fun c hc => hq c (List.mem_cons_of_mem a hc)
    cases t with
    | nil =>
      rw [List.cons_append]
      rw [show likeMatch (a :: (q ++ ['%'])) [] = false from by simp [likeMatch, ha.1]]
      simp
    | cons c ts =>
      rw [List.cons_append]
      rw [show likeMatch (a :: (q ++ ['%'])) (c :: ts) =
          (charMatch a c && likeMatch (q ++ ['%']) ts) from by simp [likeMatch, ha.1]]
      rw [Bool.and_eq_true, litStar q hq' ts]
      simp only [List.map_cons]
      rw [consPrefixCons]
      have hcm : charMatch a c = true ↔ asciiLower a = asciiLower c := by
        simp [charMatch, ha.2]
      rw [hcm]

/-- For a wildcard-free query `q`, the SQL pattern `%q%` matches a text
iff the case-folded query occurs inside the case-folded text. -/
theorem likeWrap (q : List Char) (hq : ∀ c ∈ q, c ≠ '%' ∧ c ≠ '_') (t : List Char) :
    (likeMatch ('%' :: (q ++ ['%'])) t = true ↔
      q.map asciiLower <:+: t.map asciiLower) := by
  rw [likeMatch_star]
  simp only [List.any_eq_true, List.mem_tails]
  constructor
  · rintro ⟨s, hs, hm⟩
    obtain ⟨u, hu⟩ := hs
    obtain ⟨v, hv⟩ := (litStar q hq s).mp hm
    exact ⟨u.map asciiLower, v, by rw [List.append_assoc, hv, ← List.map_append, hu]⟩
  · rintro ⟨u, v, huv⟩
    have h₂ : t.map asciiLower = u ++ (q.map asciiLower ++ v) := by
      rw [← huv, List.append_assoc]
    obtain ⟨t₁, t₂, ht, h₃, h₄⟩ := List.map_eq_append_iff.mp h₂
    refine ⟨t₂, ⟨t₁, ht.symm⟩, ?_⟩
    exact (litStar q hq t₂).mpr ⟨v, h₄.symm⟩

/-- The spec's search predicate on one field: the search string occurs,
ASCII-case-insensitively, as a substring of the field. -/
def textHasCI (q f : String) : Prop :=
  q.data.map asciiLower <:+: f.data.map asciiLower

instance textHasCIDec (q f : String) : Decidable (textHasCI q f) := by
  unfold textHasCI
  exact List.decidableInfix _ _

/-- The spec's search predicate: case-insensitive substring match on at
least one of the four text fields. -/
def specSearchMatch (q : String) (r : ContentRecord) : Prop :=
  textHasCI q r.category ∨ textHasCI q r.source ∨ textHasCI q r.content_type ∨
    textHasCI q r.difficulty_level

instance specSearchMatchDec (q : String) (r : ContentRecord) :
    Decidable (specSearchMatch q r) := by
  unfold specSearchMatch
  infer_instance

/-- The search string contains neither LIKE wildcard. -/
def noWildcards (q : String) : Bool :=
  q.data.all (fun c => !(c = '%') && !(c = '_'))

/-- Record with single-letter fields, none containing an underscore. -/
def r7 : ContentRecord :=
  {rec3 with category := "x", source := "y", content_type := "z", difficulty_level := "w"}

/-- C7 counterexample.  The search string is interpolated into a LIKE
pattern, so its wildcards stay active: the search string "_" matches the
record (any single character) although "_" is not a substring of any of
its four fields. -/
theorem c7_counterexample :
    searchPred "_" r7 = true ∧ ¬ specSearchMatch "_" r7 :=
  ⟨by decide, by decide⟩

/-- C7 amended.  For search strings containing no `%` and no `_`, the
code's LIKE-based predicate agrees exactly with case-insensitive
substring matching across the four fields, combined with OR. -/
theorem c7_amended (q : String) (r : ContentRecord) (hq : noWildcards q = true) :
    (searchPred q r = true ↔ specSearchMatch q r) := by
  have hq' : ∀ c ∈ q.data, c ≠ '%' ∧ c ≠ '_' := by
    intro c hc
    have h := List.all_eq_true.mp hq c hc
    simp only [noWildcards, Bool.and_eq_true, Bool.not_eq_true'] at h
    constructor
    · simpa using h.1
    · simpa using h.2
  unfold searchPred likeParam
  simp only [Bool.or_eq_true]
  rw [likeWrap q.data hq' r.category.data, likeWrap q.data hq' r.source.data,
    likeWrap q.data hq' r.content_type.data, likeWrap q.data hq' r.difficulty_level.data]
  simp only [specSearchMatch, textHasCI, or_assoc]

/-- C7 witness: the amended equivalence at a concrete wildcard-free
query and record. -/
theorem c7_witness :
    noWildcards "c" = true ∧ (searchPred "c" rec3 = true ↔ specSearchMatch "c" rec3) :=
  ⟨by decide, c7_amended "c" rec3 (by decide)⟩

/-!  The statistics interface (claims C2 and C8). -/

theorem map_isEmpty_false {α β : Type} (f : α → β) {l : List α} (h : l ≠ []) :
    (l.map f).isEmpty = false := by
  cases l with
  | nil => exact absurd rfl h
  | cons a l => rfl

/-- DISTINCT + ORDER BY, modelled as sorting the deduplicated column:
the result is strictly sorted and carries exactly the column's values. -/
theorem distinctSortedSpec (l : List String) :
    List.Sorted (· < ·) (List.insertionSort (· ≤ ·) l.dedup) ∧
      List.toFinset (List.insertionSort (· ≤ ·) l.dedup) = l.toFinset := by
  have hperm : List.Perm (List.insertionSort (· ≤ ·) l.dedup) l.dedup :=
    List.perm_insertionSort _ _
  have hnd : (List.insertionSort (· ≤ ·) l.dedup).Nodup :=
    hperm.nodup_iff.mpr (List.nodup_dedup l)
  refine ⟨?_, ?_⟩
  · exact (List.sorted_insertionSort _ _).lt_of_le hnd
  · rw [List.toFinset_eq_of_perm _ _ hperm]
    exact List.toFinset.ext (fun x => List.mem_dedup)

/-- C2 counterexample.  On the empty dataset the statistics are not all
zero: SQL SUM over an empty table is NULL, and the code passes it through,
so totalUpvotes is null rather than 0. -/
theorem c2_counterexample :
    getContentStats [] ≠
      { totalContent := 0, avgTimeSpent := 0, totalUpvotes := some 0, totalViews := some 0 } := by
  intro hEq
  have h := congrArg ContentStats.totalUpvotes hEq
  simp [getContentStats, sqlSum] at h

/-- C2 amended.  On the empty dataset the statistics operation does not
raise: the count is 0 and the mean is 0 (null AVG is coerced to 0 by the
JavaScript arithmetic), but both sums are null. -/
theorem c2_amended :
    getContentStats [] =
      { totalContent := 0, avgTimeSpent := 0, totalUpvotes := none, totalViews := none } := by
  unfold getContentStats sqlAvg sqlSum jsNumOf jsRound2
  norm_num

/-- C8 amended.  On a nonempty dataset the statistics interface returns
the exact record count and the exact upvote and view sums, the mean of
time_spent_minutes rounded to the nearest hundredth (within 1/200 of the
true mean), and the distinct category and source lists, strictly sorted
ascending and containing exactly the column values. -/
theorem c8_amended (db : List ContentRecord) (h : db ≠ []) :
    (getContentStats db).totalContent = db.length ∧
    (getContentStats db).totalUpvotes = some (db.map (·.upvotes)).sum ∧
    (getContentStats db).totalViews = some (db.map (·.views)).sum ∧
    (getContentStats db).avgTimeSpent =
      ((round ((db.map (·.time_spent_minutes)).sum / (db.length : ℚ) * 100) : ℤ) : ℚ) / 100 ∧
    |(getContentStats db).avgTimeSpent -
        (db.map (·.time_spent_minutes)).sum / (db.length : ℚ)| ≤ 1 / 200 ∧
    List.Sorted (· < ·) (getCategories db) ∧
    (getCategories db).toFinset = (db.map (·.category)).toFinset ∧
    List.Sorted (· < ·) (getSources db) ∧
    (getSources db).toFinset = (db.map (·.source)).toFinset := by
  have hts := map_isEmpty_false (·.time_spent_minutes) h
  have hup := map_isEmpty_false (·.upvotes) h
  have hvw := map_isEmpty_false (·.views) h
  have h4 : (getContentStats db).avgTimeSpent =
      ((round ((db.map (·.time_spent_minutes)).sum / (db.length : ℚ) * 100) : ℤ) : ℚ) / 100 := by
    unfold getContentStats jsRound2 jsNumOf sqlAvg
    rw [hts]
    simp [List.length_map]
  refine ⟨rfl, ?_, ?_, h4, ?_, ?_, ?_, ?_, ?_⟩
  · unfold getContentStats sqlSum
    rw [hup]
    simp
  · unfold getContentStats sqlSum
    rw [hvw]
    simp
  · rw [h4]
    have hr := abs_sub_round ((db.map (·.time_spent_minutes)).sum / (db.length : ℚ) * 100)
    have heq : ((round ((db.map (·.time_spent_minutes)).sum / (db.length : ℚ) * 100) : ℤ) : ℚ) / 100 -
        (db.map (·.time_spent_minutes)).sum / (db.length : ℚ) =
        (((round ((db.map (·.time_spent_minutes)).sum / (db.length : ℚ) * 100) : ℤ) : ℚ) -
          (db.map (·.time_spent_minutes)).sum / (db.length : ℚ) * 100) / 100 := by
      ring
    rw [heq, abs_div, abs_sub_comm]
    rw [show |(100 : ℚ)| = 100 from by norm_num]
    calc |(db.map (·.time_spent_minutes)).sum / (db.length : ℚ) * 100 -
          ((round ((db.map (·.time_spent_minutes)).sum / (db.length : ℚ) * 100) : ℤ) : ℚ)| / 100
        ≤ (1 / 2) / 100 := (div_le_div_iff_of_pos_right (by norm_num : (0:ℚ) < 100)).mpr hr
      _ = 1 / 200 := by norm_num
  · exact (distinctSortedSpec (db.map (·.category))).1
  · exact (distinctSortedSpec (db.map (·.category))).2
  · exact (distinctSortedSpec (db.map (·.source))).1
  · exact (distinctSortedSpec (db.map (·.source))).2

/-- Record with time_spent_minutes 1. -/
def rT1 : ContentRecord :=
  {rec3 with id := 21, time_spent_minutes := 1}

/-- Record with time_spent_minutes 2. -/
def rT2 : ContentRecord :=
  {rec3 with id := 22, time_spent_minutes := 2}

/-- Record with time_spent_minutes 4. -/
def rT4 : ContentRecord :=
  {rec3 with id := 23, time_spent_minutes := 4}

/-- Dataset whose mean time is 7/3, not representable in hundredths. -/
def db8 : List ContentRecord := [rT1, rT2, rT4]

/-- C8 counterexample.  The statistics do not return the exact mean: for
times 1, 2, 4 the code returns 2.33, not 7/3; and on the empty dataset
the upvote sum is null, not 0. -/
theorem c8_counterexample :
    (getContentStats db8).avgTimeSpent ≠
        (db8.map (·.time_spent_minutes)).sum / (db8.length : ℚ) ∧
      (getContentStats []).totalUpvotes ≠ some 0 := by
  constructor
  · have hround : round ((7 : ℚ) / 3 * 100) = 233 := by
      rw [round_eq]
      rw [show (7 : ℚ) / 3 * 100 + 1 / 2 = 1403 / 6 from by norm_num]
      rw [Int.floor_eq_iff]
      constructor
      · norm_num
      · norm_num
    have hsum : (db8.map (·.time_spent_minutes)).sum = 7 := by
      norm_num [db8, rT1, rT2, rT4, rec3]
    have hlen : ((db8.map (·.time_spent_minutes)).length : ℚ) = 3 := by
      norm_num [db8]
    have hmean : (db8.map (·.time_spent_minutes)).sum / (db8.length : ℚ) = 7 / 3 := by
      rw [hsum]
      norm_num [db8]
    have havg : (getContentStats db8).avgTimeSpent =
        ((round ((7 : ℚ) / 3 * 100) : ℤ) : ℚ) / 100 := by
      unfold getContentStats jsRound2 jsNumOf sqlAvg
      rw [show (db8.map (·.time_spent_minutes)).isEmpty = false from rfl]
      simp only [Bool.false_eq_true, if_false]
      rw [hsum, hlen]
    rw [havg, hmean, hround]
    norm_num
  · intro hEq
    simp [getContentStats, sqlSum] at hEq

/-- Two-record dataset for the C8 witness. -/
def db8w : List ContentRecord := [rT1, rT2]

/-- C8 witness: the amended statistics contract at a concrete two-record
dataset. -/
theorem c8_witness :
    db8w ≠ [] ∧
      ((getContentStats db8w).totalContent = db8w.length ∧
      (getContentStats db8w).totalUpvotes = some (db8w.map (·.upvotes)).sum ∧
      (getContentStats db8w).totalViews = some (db8w.map (·.views)).sum ∧
      (getContentStats db8w).avgTimeSpent =
        ((round ((db8w.map (·.time_spent_minutes)).sum / (db8w.length : ℚ) * 100) : ℤ) : ℚ) / 100 ∧
      |(getContentStats db8w).avgTimeSpent -
          (db8w.map (·.time_spent_minutes)).sum / (db8w.length : ℚ)| ≤ 1 / 200 ∧
      List.Sorted (· < ·) (getCategories db8w) ∧
      (getCategories db8w).toFinset = (db8w.map (·.category)).toFinset ∧
      List.Sorted (· < ·) (getSources db8w) ∧
      (getSources db8w).toFinset = (db8w.map (·.source)).toFinset) :=
  ⟨by decide, c8_amended db8w (by decide)⟩

end MockDashboard
